import Mathlib

/-!
Shallow embedding of mappum/bitcoin-wallet (src/wallet.js, first revision in
the file, and src/filterStream.js), with theorems checking the repository's
natural-language specification against the code.

Store values are JSON values (the meta section uses level's json value
encoding); store writes are tracked explicitly as lists of puts so that
frame/effect claims can be stated.  The external collaborators (the bitcoinjs
HDNode key-derivation adapter, base64 rendering, the package version string)
are modelled from the spec's collaborator contracts, as noted on each
definition.
-/

namespace BitcoinWallet

/-- Byte strings (Buffer contents) as lists of byte values. -/
abbrev Bytes := List Nat

/-- JSON values, as stored by the level store's json value encoding. -/
inductive JVal where
  | jnull : JVal
  | jbool : Bool → JVal
  | jnum : Int → JVal
  | jstr : String → JVal
  | jarr : List JVal → JVal
  | jobj : List (String × JVal) → JVal

/-- JavaScript truthiness of a JSON value (`if (res)` in the source):
null, false, 0 and the empty string are falsy; arrays and objects are truthy. -/
def truthy : JVal → Bool
  | .jnull => false
  | .jbool b => b
  | .jnum n => !(n == 0)
  | .jstr s => !(s == "")
  | .jarr _ => true
  | .jobj _ => true

/-- One section of the level store: an association of keys to JSON values,
where a later put for the same key shadows an earlier one. -/
abbrev Store := List (String × JVal)

/-- Read a key from a store section (`store.get`); `none` is the notFound error. -/
def Store.get (s : Store) (k : String) : Option JVal :=
  match s.find? (fun p => p.1 == k) with
  | some p => some p.2
  | none => none

/-- Write one key into a store section (`store.put`). -/
def Store.put (s : Store) (k : String) (v : JVal) : Store :=
  (k, v) :: s.filter (fun p => !(p.1 == k))

/-- Apply a batch of puts in order (`store.batch` with put operations). -/
def applyWrites (s : Store) (ws : List (String × JVal)) : Store :=
  ws.foldl (fun acc w => acc.put w.1 w.2) s

/-- Modelled from the spec: `Buffer.prototype.toString('base64')` of the
external runtime, as an injective byte-to-string rendering (the exact base64
alphabet is irrelevant to every claim; only injectivity and determinism are
used). -/
def b64 (b : Bytes) : String :=
  (b.map toString).foldl (fun acc s => acc ++ "," ++ s) "b64:"

/-- Field names of a JSON object, in order (empty for non-objects). -/
def fieldNames : JVal → List String
  | .jobj fields => fields.map Prod.fst
  | _ => []

/-- Modelled from the spec: the Key Derivation Adapter (spec section 6) is
external (bitcoinjs `HDNode`); a hierarchical key is determined by its seed
and its derivation path, each path step being hardened or not plus an index. -/
structure HDNode where
  seed : Bytes
  path : List (Bool × Nat)
  deriving DecidableEq, Repr

/-- Modelled from the spec: `HDNode.fromSeedBuffer` — seed to root key. -/
def HDNode.fromSeedBuffer (seed : Bytes) : HDNode := ⟨seed, []⟩

/-- Modelled from the spec: hardened child derivation (`key.deriveHardened(i)`). -/
def HDNode.deriveHardened (k : HDNode) (i : Nat) : HDNode :=
  ⟨k.seed, k.path ++ [(true, i)]⟩

/-- Modelled from the spec: non-hardened child derivation (`key.derive(i)`). -/
def HDNode.derive (k : HDNode) (i : Nat) : HDNode :=
  ⟨k.seed, k.path ++ [(false, i)]⟩

/-- Flatten a derivation path into bytes (helper for the adapter stand-ins). -/
def encodePath (path : List (Bool × Nat)) : Bytes :=
  path.foldr (fun step acc => (if step.1 then 1 else 0) :: step.2 :: acc) []

/-- Modelled from the spec: `key.getPublicKeyBuffer()` — the adapter exposes a
public key for a key; a deterministic function of seed and path. -/
def HDNode.getPublicKeyBuffer (k : HDNode) : Bytes :=
  2 :: k.seed ++ encodePath k.path

/-- Modelled from the spec: `key.getIdentifier()` — the adapter exposes a
public identifier (redeem-script hash) for a key; a deterministic function of
seed and path, distinct from the public key. -/
def HDNode.getIdentifier (k : HDNode) : Bytes :=
  3 :: k.seed ++ encodePath k.path

/-- Modelled from the spec: `pkg.version`, the schema/version marker read from
package metadata (package.json is not among the sources); an opaque string. -/
def pkgVersion : String := "0.0.0"

/-! Transaction scripts, as classified by the external Script codec
(spec section 6: pattern recognition and field extraction). -/

/-- Locking script of a transaction output, as seen through the codec:
either it matches the pay-to-script-hash shape — `Script.isScriptHashOutput`
holds and `Script.decompile(script)[1]` is the embedded hash — or it does not. -/
inductive OutScript where
  | scriptHash : Bytes → OutScript
  | other : Bytes → OutScript
  deriving DecidableEq, Repr

/-- Unlocking script of a transaction input, as seen through the codec:
`scriptHashPubKey pk` matches `Script.isScriptHashInput` with a redeem script
matching `Script.isPubKeyOutput` whose first decompiled chunk is `pk`;
`scriptHashOther` matches `isScriptHashInput` but its redeem script is not a
single-key pattern; `other` does not match `isScriptHashInput`. -/
inductive InScript where
  | scriptHashPubKey : Bytes → InScript
  | scriptHashOther : Bytes → InScript
  | other : Bytes → InScript
  deriving DecidableEq, Repr

/-- Transaction input (only the unlocking script matters to the filter). -/
structure TxIn where
  script : InScript
  deriving DecidableEq, Repr

/-- Transaction output (only the locking script matters to the filter). -/
structure TxOut where
  script : OutScript
  deriving DecidableEq, Repr

/-- Transaction: its inputs and outputs. -/
structure Tx where
  ins : List TxIn
  outs : List TxOut
  deriving DecidableEq, Repr

/-- Block handed to the wallet / filter: header data plus transactions. -/
structure Block where
  height : Nat
  hash : Bytes
  transactions : List Tx
  deriving DecidableEq, Repr

/-! The Wallet engine (src/wallet.js, first revision in the file). -/

/-- The `keys` sub-object of the persisted sync record
(`{ derived: ..., seen: ... }` in `_initializeMeta`). -/
structure SyncKeys where
  derived : Nat
  seen : Nat
  deriving DecidableEq, Repr

/-- In-memory sync cursor (`this.sync`): height, block hash, key extents. -/
structure Sync where
  height : Nat
  hash : Option Bytes
  keys : SyncKeys
  deriving DecidableEq, Repr

/-- JSON value persisted for the sync cursor, with the field names the code
writes (a `Buffer` hash would json-encode as a `{type, data}` object). -/
def Sync.toJVal (s : Sync) : JVal :=
  .jobj [("height", .jnum s.height),
         ("hash", match s.hash with
           | none => .jnull
           | some b => .jobj [("type", .jstr "Buffer"),
                              ("data", .jarr (b.map (fun x => .jnum x)))]),
         ("keys", .jobj [("derived", .jnum s.keys.derived),
                         ("seen", .jnum s.keys.seen)])]

/-- Constructor options (`opts`): look-ahead override and creation date. -/
structure Opts where
  lookAhead : Option Nat := none
  date : Option Int := none
  deriving DecidableEq, Repr

/-- JavaScript `a || b` where `a` is a possibly-undefined number: undefined
and 0 are falsy, so both select the default. -/
def jsOrNat : Option Nat → Nat → Nat
  | none, d => d
  | some n, d => if n = 0 then d else n

/-- The constructor's look-ahead setting:
`this.lookAhead = opts.lookAhead || 100`. -/
def lookAheadSetting (opts : Opts) : Nat := jsOrNat opts.lookAhead 100

/-- Wallet instance state after construction: the look-ahead setting, the
in-memory sync cursor, the seed the root key was built from, and whether the
ready event has fired. -/
structure Wallet where
  lookAhead : Nat
  sync : Sync
  seed : Bytes
  ready : Bool
  deriving DecidableEq, Repr

/-- Root key of the wallet (`this.key = HDNode.fromSeedBuffer(seed, params)`). -/
def Wallet.key (w : Wallet) : HDNode := HDNode.fromSeedBuffer w.seed

/-- External-chain derivation key set at readiness
(`this.deriveKey = this.key.deriveHardened(0)`). -/
def Wallet.deriveKey (w : Wallet) : HDNode := w.key.deriveHardened 0

/-- The code's `Wallet.prototype._derive`: `this.deriveKey.derive(i)`. -/
def Wallet.deriveChild (w : Wallet) (i : Nat) : HDNode := w.deriveKey.derive i

/-- The code's `Wallet.prototype._keyElements`: the two identifying byte
strings of a key, its public key and its identifier. -/
def Wallet.keyElements (k : HDNode) : List Bytes :=
  [k.getPublicKeyBuffer, k.getIdentifier]

/-- The code's `Wallet.prototype._deriveAll`: derive indices
`[0, keys.seen + lookAhead)`, set `sync.keys.derived` to that bound, and put
the updated sync record into the meta section.  Returns the derived keys, the
updated wallet state, and the list of meta puts performed. -/
def Wallet.deriveAll (w : Wallet) :
    List HDNode × Wallet × List (String × JVal) :=
  let keyIndex := w.sync.keys.seen + w.lookAhead
  let derived := (List.range keyIndex).map w.deriveChild
  let sync' : Sync := { w.sync with keys := { w.sync.keys with derived := keyIndex } }
  (derived, { w with sync := sync' }, [("sync", sync'.toJVal)])

/-- The code's `Wallet.prototype.filterElements` on a ready wallet: run
`_deriveAll`, map `_keyElements` over the derived keys and flatten.  Returns
the flattened elements, the updated wallet state, and the meta puts
performed.  (On a non-ready wallet the call is merely deferred by
`onceReady` until readiness.) -/
def Wallet.filterElements (w : Wallet) :
    List Bytes × Wallet × List (String × JVal) :=
  let r := w.deriveAll
  ((r.1.map Wallet.keyElements).flatten, r.2.1, r.2.2)

/-- The `this.sync` value built by `_initializeMeta`:
`{height: 0, hash: null, keys: {derived: 0, seen: 0}}`. -/
def initialSync : Sync := ⟨0, none, ⟨0, 0⟩⟩

/-- Truthiness of a store read result: the notFound error leaves `res`
undefined (falsy); otherwise `if (res)` tests the value itself. -/
def truthyGet : Option JVal → Bool
  | none => false
  | some v => truthy v

/-- The guard loop of `_initializeMeta`: the first of the meta keys `sync`,
`info`, `key` whose stored value is truthy, if any (each iteration errors on
`if (res)`; a notFound read passes). -/
def existingMetaKey (meta : Store) : Option String :=
  if truthyGet (meta.get "sync") then some "sync"
  else if truthyGet (meta.get "info") then some "info"
  else if truthyGet (meta.get "key") then some "key"
  else none

/-- The code's `Wallet.prototype._initializeMeta`: guard that none of the
three meta records holds a (truthy) value, then batch-put the fresh sync,
info and key records.  `seed` stands for the `crypto.randomBytes(64)` result
and `now` for `Date.now()`.  Returns the batch of puts, or the
`Existing meta key` error with no writes performed. -/
def Wallet.initializeMeta (meta : Store) (opts : Opts) (seed : Bytes)
    (now : Int) : Except String (List (String × JVal)) :=
  match existingMetaKey meta with
  | some k => .error ("Existing meta key: " ++ k)
  | none =>
      let key := HDNode.fromSeedBuffer seed
      .ok [("sync", initialSync.toJVal),
           ("info", .jobj [("date", .jnum (opts.date.getD now)),
                           ("version", .jstr pkgVersion)]),
           ("key", .jobj [("pubKey", .jstr (b64 key.getPublicKeyBuffer)),
                          ("seed", .jstr (b64 seed))])]

/-- Opening a wallet on an empty store: every `_loadMeta` read is notFound,
so `_initializeMeta` runs (it cannot error on an empty store, as proved
below); the constructor callback then sets `pubKey`/`deriveKey` and fires
ready.  Returns the wallet state at the moment ready fires and the meta
section contents after the batch.  The error branch models a wallet whose
ready event never fires. -/
def Wallet.openEmpty (opts : Opts) (seed : Bytes) (now : Int) :
    Wallet × Store :=
  let la := lookAheadSetting opts
  match Wallet.initializeMeta [] opts seed now with
  | .ok ws => (⟨la, initialSync, seed, true⟩, applyWrites [] ws)
  | .error _ => (⟨la, initialSync, seed, false⟩, [])

/-- The code's `Wallet.prototype._processBlock`: the body is
`async.each(block.transactions, (tx, cb) => { }, cb)` — the per-transaction
iterator never invokes its callback, so the operation completes (with no
state change and no store write) exactly when the transaction list is empty,
and never completes otherwise (`none`). -/
def Wallet.processBlock (w : Wallet) (b : Block) :
    Option (Wallet × List (String × JVal)) :=
  if b.transactions.isEmpty then some (w, []) else none

/-! The Relevance Filter (src/filterStream.js). -/

/-- The key index handed to `FilterStream` (`this.keys`): identifying-element
bytes, rendered base64 as the store key, mapped to the derivation index. -/
abbrev KeyStore := List (String × Nat)

/-- Read the key index (`this.keys.get`); `none` is the notFound error. -/
def KeyStore.get (ks : KeyStore) (k : String) : Option Nat :=
  (ks.find? (fun p => p.1 == k)).map Prod.snd

/-- JavaScript runtime errors surfaced by the filter. -/
inductive JsErr where
  | typeError : String → JsErr
  deriving DecidableEq, Repr

/-- The code's `FilterStream.getInputKey`: inputs whose script does not match
the script-hash-input-with-single-key-redeem-script shape yield `null`; for a
matching input the code reads the key index and then — on the found and the
notFound path alike — evaluates `var key = this._derive(index)`, and
`FilterStream` defines no `_derive` method, so a TypeError is thrown. -/
def FilterStream.getInputKey (keys : KeyStore) (inp : TxIn) :
    Except JsErr (Option HDNode) :=
  match inp.script with
  | .other _ => .ok none
  | .scriptHashOther _ => .ok none
  | .scriptHashPubKey pk =>
      let _index := keys.get (b64 pk)
      .error (.typeError "this._derive is not a function")

/-- The code's `FilterStream.getOutputKey`: outputs whose script does not
match the pay-to-script-hash shape yield `null`; for a matching output the
code reads the key index under the embedded hash and then — on the found and
the notFound path alike (the notFound branch does not return) — evaluates
`var key = this._derive(index)`, and `FilterStream` defines no `_derive`
method, so a TypeError is thrown. -/
def FilterStream.getOutputKey (keys : KeyStore) (o : TxOut) :
    Except JsErr (Option (HDNode × Nat)) :=
  match o.script with
  | .other _ => .ok none
  | .scriptHash h =>
      let _index := keys.get (b64 h)
      .error (.typeError "this._derive is not a function")

/-- Positions of the relevant entries of one transaction
(`relevant = { ins: [], outs: [] }` in `getRelevant`, keeping the indices). -/
structure Relevant where
  ins : List Nat
  outs : List Nat
  deriving DecidableEq, Repr

/-- Input loop of `getRelevant`: collect the positions of inputs whose key
lookup yields a truthy key, propagating the first error. -/
def relevantIns (keys : KeyStore) : List TxIn → Nat → Except JsErr (List Nat)
  | [], _ => .ok []
  | inp :: rest, i =>
      match FilterStream.getInputKey keys inp with
      | .error e => .error e
      | .ok k =>
          match relevantIns keys rest (i + 1) with
          | .error e => .error e
          | .ok tail => .ok (if k.isSome then i :: tail else tail)

/-- Output loop of `getRelevant`: collect the positions of outputs whose key
lookup yields a truthy value, propagating the first error. -/
def relevantOuts (keys : KeyStore) : List TxOut → Nat → Except JsErr (List Nat)
  | [], _ => .ok []
  | o :: rest, i =>
      match FilterStream.getOutputKey keys o with
      | .error e => .error e
      | .ok k =>
          match relevantOuts keys rest (i + 1) with
          | .error e => .error e
          | .ok tail => .ok (if k.isSome then i :: tail else tail)

/-- The code's `FilterStream.getRelevant`: relevant input positions, then
relevant output positions, first error aborting. -/
def FilterStream.getRelevant (keys : KeyStore) (tx : Tx) :
    Except JsErr Relevant :=
  match relevantIns keys tx.ins 0 with
  | .error e => .error e
  | .ok ins =>
      match relevantOuts keys tx.outs 0 with
      | .error e => .error e
      | .ok outs => .ok ⟨ins, outs⟩

/-- Transaction loop of `_transform`: a transaction is pushed onto
`relevantTxs` exactly when its relevant inputs or outputs are nonempty. -/
def filterTxs (keys : KeyStore) : List Tx → Except JsErr (List (Tx × Relevant))
  | [] => .ok []
  | tx :: rest =>
      match FilterStream.getRelevant keys tx with
      | .error e => .error e
      | .ok rel =>
          match filterTxs keys rest with
          | .error e => .error e
          | .ok tail =>
              .ok (if rel.ins.isEmpty && rel.outs.isEmpty then tail
                   else (tx, rel) :: tail)

/-- The code's `FilterStream._transform`: annotate a block with its list of
relevant transactions (each paired with its relevant entries), or propagate
the first per-transaction error, in which case no annotated block is
produced. -/
def FilterStream.transformBlock (keys : KeyStore) (b : Block) :
    Except JsErr (List (Tx × Relevant)) :=
  filterTxs keys b.transactions

/-! Concrete states used by the theorems below. -/

/-- A ready wallet with the default look-ahead and a fresh cursor. -/
def wC1 : Wallet := ⟨100, ⟨0, none, ⟨0, 0⟩⟩, [1, 2], true⟩

/-- The wallet state at readiness after opening on an empty store. -/
def wC2 : Wallet := (Wallet.openEmpty ⟨none, none⟩ [3, 4] 0).1

/-- A ready wallet about to process a block. -/
def wC3 : Wallet := ⟨100, ⟨0, none, ⟨0, 0⟩⟩, [5], true⟩

/-- A block at height 1 carrying no transactions (hence none relevant). -/
def blockC3 : Block := ⟨1, [170], []⟩

/-! Theorems. -/

/-- C1, counterexample: on the ready wallet `wC1` (cursor
`derived = 0, seen = 0`, look-ahead 100), `filterElements` changes the sync
cursor's `keysDerived` and performs a store write, so it is neither
cursor-preserving nor write-free as the claim states. -/
theorem c1_filterElements_not_free_cex :
    (wC1.filterElements).2.1.sync.keys.derived ≠ wC1.sync.keys.derived ∧
    (wC1.filterElements).2.2 ≠ [] := by
  constructor
  · decide
  · simp [wC1, Wallet.filterElements, Wallet.deriveAll]

/-- C1, amended: on every ready wallet, `filterElements` leaves `height`,
`blockHash` and `keysUsed` unchanged, sets `keysDerived` to
`keysUsed + lookAheadWindow`, and performs exactly one store write — a put of
the updated sync record; when `keysDerived` already equalled
`keysUsed + lookAheadWindow`, the wallet state is unchanged (so the write
rewrites the value already persisted). -/
theorem c1_filterElements_effect (w : Wallet) (h : w.ready = true) :
    (w.filterElements).2.1.sync.height = w.sync.height ∧
    (w.filterElements).2.1.sync.hash = w.sync.hash ∧
    (w.filterElements).2.1.sync.keys.seen = w.sync.keys.seen ∧
    (w.filterElements).2.1.sync.keys.derived = w.sync.keys.seen + w.lookAhead ∧
    (w.filterElements).2.2 = [("sync", (w.filterElements).2.1.sync.toJVal)] ∧
    (w.sync.keys.derived = w.sync.keys.seen + w.lookAhead →
      (w.filterElements).2.1 = w) := by
  obtain ⟨la, ⟨ht, hh, ⟨d, s⟩⟩, sd, rd⟩ := w
  refine ⟨rfl, rfl, rfl, rfl, rfl, ?_⟩
  intro hd
  simp only [Wallet.filterElements, Wallet.deriveAll] at hd ⊢
  simp_all

/-- C1, witness for the amended theorem at the concrete ready wallet `wC1`. -/
theorem c1_filterElements_effect_witness :
    wC1.ready = true ∧
    ((wC1.filterElements).2.1.sync.height = wC1.sync.height ∧
     (wC1.filterElements).2.1.sync.hash = wC1.sync.hash ∧
     (wC1.filterElements).2.1.sync.keys.seen = wC1.sync.keys.seen ∧
     (wC1.filterElements).2.1.sync.keys.derived =
       wC1.sync.keys.seen + wC1.lookAhead ∧
     (wC1.filterElements).2.2 = [("sync", (wC1.filterElements).2.1.sync.toJVal)] ∧
     (wC1.sync.keys.derived = wC1.sync.keys.seen + wC1.lookAhead →
       (wC1.filterElements).2.1 = wC1)) :=
  ⟨rfl, c1_filterElements_effect wC1 rfl⟩

/-- C2, counterexample: the wallet opened on an empty store has
`keysDerived = 0` at the moment ready fires, so the claimed
`keysDerived ≥ lookAheadWindow` (here 100) fails. -/
theorem c2_fresh_cursor_cex :
    ¬(wC2.sync.keys.seen = 0 ∧ wC2.lookAhead ≤ wC2.sync.keys.derived) := by
  decide

/-- C2, amended: for every wallet opened on an empty store, at the moment the
ready signal fires the cursor satisfies `keysUsed = 0` and `keysDerived = 0`
(with `height = 0` and a null block hash); the look-ahead invariant
`keysDerived ≥ keysUsed + lookAheadWindow` does not hold yet — it is first
established by the initial key derivation (`_deriveAll`), not at readiness. -/
theorem c2_fresh_wallet_cursor (opts : Opts) (seed : Bytes) (now : Int) :
    (Wallet.openEmpty opts seed now).1.ready = true ∧
    (Wallet.openEmpty opts seed now).1.sync.keys.seen = 0 ∧
    (Wallet.openEmpty opts seed now).1.sync.keys.derived = 0 ∧
    (Wallet.openEmpty opts seed now).1.sync.height = 0 ∧
    (Wallet.openEmpty opts seed now).1.sync.hash = none := by
  simp [Wallet.openEmpty, Wallet.initializeMeta, existingMetaKey, Store.get,
    truthyGet, initialSync]

/-- C3, divergence evidence: `_processBlock` is a stub — on the block
`blockC3` at height 1 (zero transactions, hence zero relevant transactions)
it completes with the wallet state unchanged (cursor still at height 0, hash
null) and no store writes, instead of advancing the cursor to the block's
height and hash as the claim states. -/
theorem c3_processBlock_ignores_cursor :
    blockC3.height = 1 ∧ wC3.sync.height = 0 ∧ wC3.sync.hash = none ∧
    wC3.processBlock blockC3 = some (wC3, []) :=
  ⟨rfl, rfl, rfl, rfl⟩

/-- A store holding a falsy JSON value under the `sync` meta key. -/
def storeC4 : Store := [("sync", .jnum 0)]

/-- A store holding a (truthy) key record only. -/
def storeC4w : Store := [("key", .jobj [("seed", .jstr "s")])]

/-- The batch `_initializeMeta` writes for seed `[7]` and date 0. -/
def c4Batch : List (String × JVal) :=
  [("sync", initialSync.toJVal),
   ("info", .jobj [("date", .jnum 0), ("version", .jstr pkgVersion)]),
   ("key", .jobj [("pubKey",
      .jstr (b64 (HDNode.fromSeedBuffer [7]).getPublicKeyBuffer)),
                  ("seed", .jstr (b64 [7]))])]

/-- C4, counterexample: the guard in `_initializeMeta` tests JavaScript
truthiness of the read value (`if (res)`), so on a store whose `sync` meta
record exists but holds the falsy JSON value 0, first-run initialization does
not fail: it succeeds and its batch overwrites the pre-existing record. -/
theorem c4_falsy_record_overwritten_cex :
    storeC4.get "sync" = some (.jnum 0) ∧
    Wallet.initializeMeta storeC4 ⟨none, none⟩ [7] 0 = .ok c4Batch ∧
    (applyWrites storeC4 c4Batch).get "sync" = some initialSync.toJVal ∧
    initialSync.toJVal ≠ .jnum 0 := by
  refine ⟨rfl, rfl, rfl, ?_⟩
  simp [initialSync, Sync.toJVal]

/-- C4, amended: for every store in which at least one of the three meta
records (`sync`, `info`, `key`) exists with a truthy JSON value, first-run
initialization fails with an error and performs no writes, so all
pre-existing store contents are unchanged after the failed attempt. -/
theorem c4_initialize_guard (meta : Store) (opts : Opts) (seed : Bytes)
    (now : Int)
    (h : truthyGet (meta.get "sync") = true ∨
         truthyGet (meta.get "info") = true ∨
         truthyGet (meta.get "key") = true) :
    (Wallet.initializeMeta meta opts seed now).isOk = false := by
  rcases h with h | h | h
  · simp [Wallet.initializeMeta, existingMetaKey, h, Except.isOk, Except.toBool]
  · by_cases h1 : truthyGet (meta.get "sync") = true <;>
      simp [Wallet.initializeMeta, existingMetaKey, h, h1, Except.isOk, Except.toBool]
  · by_cases h1 : truthyGet (meta.get "sync") = true <;>
      by_cases h2 : truthyGet (meta.get "info") = true <;>
        simp [Wallet.initializeMeta, existingMetaKey, h, h1, h2, Except.isOk, Except.toBool]

/-- C4, witness for the amended theorem at the concrete store `storeC4w`. -/
theorem c4_initialize_guard_witness :
    (truthyGet (storeC4w.get "sync") = true ∨
     truthyGet (storeC4w.get "info") = true ∨
     truthyGet (storeC4w.get "key") = true) ∧
    (Wallet.initializeMeta storeC4w ⟨none, none⟩ [7] 0).isOk = false :=
  ⟨Or.inr (Or.inr rfl),
   c4_initialize_guard storeC4w ⟨none, none⟩ [7] 0 (Or.inr (Or.inr rfl))⟩

/-- Key index holding the script hash `[17]` (base64-keyed) at index 5. -/
def keysC5 : KeyStore := [(b64 [17], 5)]

/-- A transaction output whose locking script is pay-to-script-hash with
embedded hash `[17]`. -/
def outC5 : TxOut := ⟨.scriptHash [17]⟩

/-- C5, divergence evidence: on a pay-to-script-hash output, `getOutputKey`
reaches `var key = this._derive(index)` on the found and the notFound path
alike, and `FilterStream` defines no `_derive` method — so with the embedded
hash present in the key index (at index 5) the call throws a TypeError
instead of marking the output relevant, and with the hash absent it throws
the same TypeError instead of returning null. -/
theorem c5_getOutputKey_throws :
    keysC5.get (b64 [17]) = some 5 ∧
    FilterStream.getOutputKey keysC5 outC5 =
      .error (.typeError "this._derive is not a function") ∧
    FilterStream.getOutputKey [] outC5 =
      .error (.typeError "this._derive is not a function") :=
  ⟨rfl, rfl, rfl⟩

/-- A ready wallet with look-ahead 2 and one used key. -/
def wC6 : Wallet := ⟨2, ⟨5, some [9], ⟨0, 1⟩⟩, [8], true⟩

/-- C6, counterexample: `_deriveAll` writes the sync record unconditionally,
so running it twice in succession (with `keysUsed` unchanged in between, as
shown) still performs a store write on the second run. -/
theorem c6_second_update_writes_cex :
    (wC6.deriveAll).2.1.sync.keys.seen = wC6.sync.keys.seen ∧
    ((wC6.deriveAll).2.1.deriveAll).2.2 ≠ [] := by
  constructor
  · decide
  · simp [wC6, Wallet.deriveAll]

/-- Putting the same key twice leaves only the later put visible. -/
theorem Store.put_put (s : Store) (k : String) (v v' : JVal) :
    (s.put k v).put k v' = s.put k v' := by
  simp [Store.put, List.filter_filter]

/-- C6, amended: running the key-update operation twice in succession with no
intervening change to `keysUsed` is idempotent in effect, but not write-free:
the second run leaves the wallet state unchanged and performs the same single
write of an identical sync record, so the persisted store contents after the
second run equal those after the first. -/
theorem c6_deriveAll_idempotent (w : Wallet) (s : Store)
    (h : w.ready = true) :
    ((w.deriveAll).2.1.deriveAll).2.1 = (w.deriveAll).2.1 ∧
    ((w.deriveAll).2.1.deriveAll).2.2 = (w.deriveAll).2.2 ∧
    applyWrites (applyWrites s (w.deriveAll).2.2)
        ((w.deriveAll).2.1.deriveAll).2.2 =
      applyWrites s (w.deriveAll).2.2 := by
  obtain ⟨la, ⟨ht, hh, ⟨d, sn⟩⟩, sd, rd⟩ := w
  refine ⟨rfl, rfl, ?_⟩
  simp [Wallet.deriveAll, applyWrites, Store.put_put]

/-- C6, witness for the amended theorem at the concrete wallet `wC6`. -/
theorem c6_deriveAll_idempotent_witness :
    wC6.ready = true ∧
    (((wC6.deriveAll).2.1.deriveAll).2.1 = (wC6.deriveAll).2.1 ∧
     ((wC6.deriveAll).2.1.deriveAll).2.2 = (wC6.deriveAll).2.2 ∧
     applyWrites (applyWrites [] (wC6.deriveAll).2.2)
         ((wC6.deriveAll).2.1.deriveAll).2.2 =
       applyWrites [] (wC6.deriveAll).2.2) :=
  ⟨rfl, c6_deriveAll_idempotent wC6 [] rfl⟩

/-- Key index holding the script hash `[34]` (base64-keyed) at index 6. -/
def keysC7 : KeyStore := [(b64 [34], 6)]

/-- A transaction whose only output pays to script hash `[34]`. -/
def txC7 : Tx := ⟨[], [⟨.scriptHash [34]⟩]⟩

/-- A block containing only `txC7`. -/
def blockC7 : Block := ⟨2, [7], [txC7]⟩

/-- A transaction with no script-hash-shaped inputs or outputs. -/
def txC7b : Tx := ⟨[⟨.other [1]⟩], [⟨.other [2]⟩]⟩

/-- A block containing only `txC7b`. -/
def blockC7b : Block := ⟨3, [8], [txC7b]⟩

/-- C7, divergence evidence: a block whose transaction has a relevant output
(its pay-to-script-hash hash `[34]` is in the key index at index 6) makes
`_transform` propagate the TypeError from `getOutputKey` (`FilterStream` has
no `_derive` method), so no filtered block is produced and the transaction
never appears in any output list; a block whose transactions match no shape
is filtered to the empty relevant list (the omission half of the claim). -/
theorem c7_transform_errors_on_relevant_tx :
    keysC7.get (b64 [34]) = some 6 ∧
    FilterStream.transformBlock keysC7 blockC7 =
      .error (.typeError "this._derive is not a function") ∧
    FilterStream.transformBlock keysC7 blockC7b = .ok [] :=
  ⟨rfl, rfl, rfl⟩

/-- The batch `_initializeMeta` writes for seed `[9]` and date option 0. -/
def c8Batch : List (String × JVal) :=
  [("sync", .jobj [("height", .jnum 0), ("hash", .jnull),
      ("keys", .jobj [("derived", .jnum 0), ("seen", .jnum 0)])]),
   ("info", .jobj [("date", .jnum 0), ("version", .jstr pkgVersion)]),
   ("key", .jobj [("pubKey",
      .jstr (b64 (HDNode.fromSeedBuffer [9]).getPublicKeyBuffer)),
                  ("seed", .jstr (b64 [9]))])]

/-- C8, counterexample: the values actually persisted at first-run
initialization differ from the claimed shapes — the sync record's nested
keys object has fields `derived` and `seen` (not `derived` and `used`), and
the key record has fields `pubKey` and `seed` (not `seed` alone). -/
theorem c8_shapes_cex :
    Wallet.initializeMeta [] ⟨none, some 0⟩ [9] 0 = .ok c8Batch ∧
    fieldNames (.jobj [("derived", .jnum 0), ("seen", .jnum 0)]) ≠
      ["derived", "used"] ∧
    fieldNames (.jobj [("pubKey",
      .jstr (b64 (HDNode.fromSeedBuffer [9]).getPublicKeyBuffer)),
                       ("seed", .jstr (b64 [9]))]) ≠ ["seed"] := by
  refine ⟨rfl, ?_, ?_⟩ <;> decide

/-- C8, amended: for every seed, date option and clock value, first-run
initialization persists exactly three records with these shapes — `sync` is
`{height: int, hash: null, keys: {derived: int, seen: int}}`, `info` is
`{date: timestamp, version: string}`, and `key` is
`{pubKey: bytes-as-base64, seed: bytes-as-base64}` — with exactly these field
names and no others. -/
theorem c8_persisted_shapes (opts : Opts) (seed : Bytes) (now : Int) :
    Wallet.initializeMeta [] opts seed now =
      .ok [("sync", .jobj [("height", .jnum 0), ("hash", .jnull),
             ("keys", .jobj [("derived", .jnum 0), ("seen", .jnum 0)])]),
           ("info", .jobj [("date", .jnum (opts.date.getD now)),
                           ("version", .jstr pkgVersion)]),
           ("key", .jobj [("pubKey",
              .jstr (b64 (HDNode.fromSeedBuffer seed).getPublicKeyBuffer)),
                          ("seed", .jstr (b64 seed))])] := rfl

/-- A ready wallet with the default look-ahead, seed `[1, 2, 3]`. -/
def wC9a : Wallet := ⟨100, ⟨0, none, ⟨0, 0⟩⟩, [1, 2, 3], true⟩

/-- A wallet with the same seed as `wC9a` but different cursor, look-ahead
and readiness. -/
def wC9b : Wallet := ⟨7, ⟨9, some [4], ⟨3, 2⟩⟩, [1, 2, 3], false⟩

/-- C9: key derivation is deterministic — for any two wallet states built
from the same seed, deriving index `i` via the hardened child 0 of the root
key yields byte-identical public-key and script-hash identifying elements,
whatever the rest of the wallet state is. -/
theorem c9_derivation_deterministic (w1 w2 : Wallet) (h : w1.seed = w2.seed)
    (i : Nat) :
    Wallet.keyElements (w1.deriveChild i) = Wallet.keyElements (w2.deriveChild i) := by
  simp [Wallet.keyElements, Wallet.deriveChild, Wallet.deriveKey, Wallet.key, h]

/-- C9, witness at two concrete wallets sharing the seed `[1, 2, 3]`. -/
theorem c9_derivation_deterministic_witness :
    wC9a.seed = wC9b.seed ∧
    Wallet.keyElements (wC9a.deriveChild 3) =
      Wallet.keyElements (wC9b.deriveChild 3) :=
  ⟨rfl, c9_derivation_deterministic wC9a wC9b rfl 3⟩

/-- C10: the constructor's look-ahead window is 100 when no `lookAhead`
option is given and also when 0 is given (JavaScript `||` treats 0 as
falsy); a nonzero value is used as given; the wallet built on an empty store
with `lookAhead: 0` indeed carries window 100. -/
theorem c10_lookAhead_setting (n : Nat) (h : n ≠ 0) :
    lookAheadSetting ⟨none, none⟩ = 100 ∧
    lookAheadSetting ⟨some 0, none⟩ = 100 ∧
    lookAheadSetting ⟨some n, none⟩ = n ∧
    (Wallet.openEmpty ⟨some 0, none⟩ [1] 0).1.lookAhead = 100 := by
  refine ⟨rfl, rfl, ?_, rfl⟩
  simp [lookAheadSetting, jsOrNat, h]

/-- C10, witness at the concrete nonzero option value 7. -/
theorem c10_lookAhead_setting_witness :
    (7 : Nat) ≠ 0 ∧
    (lookAheadSetting ⟨none, none⟩ = 100 ∧
     lookAheadSetting ⟨some 0, none⟩ = 100 ∧
     lookAheadSetting ⟨some 7, none⟩ = 7 ∧
     (Wallet.openEmpty ⟨some 0, none⟩ [1] 0).1.lookAhead = 100) :=
  ⟨by decide, c10_lookAhead_setting 7 (by decide)⟩

end BitcoinWallet
